import Mathlib

/-!
Shallow embedding of the warp-tracing-playground service (src/main.rs):
a users resource (list, create) over an in-memory store, plus the
request-observability pipeline (classification of completed requests into
`ServiceMetrics` and recording into a process-wide metrics registry).
-/

/-- JSON values, as produced/consumed by the serde derives on `User` and
`Gender`.  Numbers are restricted to naturals since the only numeric field
is the unsigned 64-bit `id`. -/
inductive Json where
  | null : Json
  | bool : Bool → Json
  | num : Nat → Json
  | str : String → Json
  | arr : List Json → Json
  | obj : List (String × Json) → Json

/-- `models::Gender`: closed enumeration with serde tags renamed to
camelCase, i.e. "female" | "male" | "unspecified". -/
inductive Gender where
  | female : Gender
  | male : Gender
  | unspecified : Gender
deriving DecidableEq

/-- `models::User`: id (u64), optional firstName (omitted from the
serialized form when `none`, via skip_serializing_if), required lastName,
required gender. -/
structure User where
  id : Nat
  first_name : Option String
  last_name : String
  gender : Gender
deriving DecidableEq

/-- serde serialization of `Gender` (rename_all = camelCase). -/
def Gender.toJson : Gender → Json
  | Gender.female => Json.str "female"
  | Gender.male => Json.str "male"
  | Gender.unspecified => Json.str "unspecified"

/-- serde deserialization of `Gender`: only the three camelCase tags are
accepted; anything else is a deserialization failure. -/
def Gender.fromJson : Json → Except String Gender
  | Json.str s =>
      if s = "female" then Except.ok Gender.female
      else if s = "male" then Except.ok Gender.male
      else if s = "unspecified" then Except.ok Gender.unspecified
      else Except.error "unknown variant of Gender"
  | _ => Except.error "expected a string for Gender"

/-- serde serialization of `User` in declaration order; `firstName` is
skipped entirely when absent (skip_serializing_if = Option.is_none). -/
def User.toJson (u : User) : Json :=
  Json.obj
    ([("id", Json.num u.id)]
      ++ (match u.first_name with
          | none => []
          | some s => [("firstName", Json.str s)])
      ++ [("lastName", Json.str u.last_name), ("gender", Gender.toJson u.gender)])

/-- First binding of a key in a JSON object's field list. -/
def jsonLookup : List (String × Json) → String → Option Json
  | [], _ => none
  | (k, v) :: rest, key => if k = key then some v else jsonLookup rest key

/-- Keys of a JSON object (empty for non-objects). -/
def Json.objKeys : Json → List String
  | Json.obj fields => fields.map Prod.fst
  | _ => []

/-- serde deserialization of the `id` field (required, u64). -/
def parseId : Option Json → Except String Nat
  | some (Json.num n) => Except.ok n
  | _ => Except.error "invalid or missing id"

/-- serde deserialization of the optional `firstName` field: a missing
field and an explicit null both give `none`. -/
def parseFirstName : Option Json → Except String (Option String)
  | none => Except.ok none
  | some Json.null => Except.ok none
  | some (Json.str s) => Except.ok (some s)
  | _ => Except.error "invalid firstName"

/-- serde deserialization of the required `lastName` field. -/
def parseLastName : Option Json → Except String String
  | some (Json.str s) => Except.ok s
  | _ => Except.error "invalid or missing lastName"

/-- serde deserialization of `User`: all required fields must be present
and well-typed; a failing `gender` tag fails the whole record. -/
def User.fromJson : Json → Except String User
  | Json.obj fields =>
      match parseId (jsonLookup fields "id") with
      | Except.error e => Except.error e
      | Except.ok id =>
        match parseFirstName (jsonLookup fields "firstName") with
        | Except.error e => Except.error e
        | Except.ok first_name =>
          match parseLastName (jsonLookup fields "lastName") with
          | Except.error e => Except.error e
          | Except.ok last_name =>
            match jsonLookup fields "gender" with
            | none => Except.error "missing gender"
            | some g =>
              match Gender.fromJson g with
              | Except.error e => Except.error e
              | Except.ok gender =>
                Except.ok { id := id, first_name := first_name,
                            last_name := last_name, gender := gender }
  | _ => Except.error "expected an object for User"

/-- An HTTP reply: status code plus body; `none` models the empty body of
a bare `StatusCode` reply. -/
structure Reply where
  status : Nat
  body : Option Json

/-- `handlers::list_users`: locks the store, clones it, replies 200 with
the JSON array; the store itself is unchanged. -/
def list_users (state : List User) : Reply × List User :=
  ({ status := 200, body := some (Json.arr (state.map User.toJson)) }, state)

/-- `handlers::create_user`: locks the store, pushes the user at the tail
(`Vec::push`), replies 201 Created with empty body. -/
def create_user (user : User) (state : List User) : Reply × List User :=
  ({ status := 201, body := none }, state ++ [user])

/-- `filters::create_user` composed with `filters::json_body`: the body is
deserialized; on success the handler runs, on failure warp rejects the
request (client error) and the store is untouched. -/
def post_users_route (body : Json) (state : List User) : Reply × List User :=
  match User.fromJson body with
  | Except.ok u => create_user u state
  | Except.error _ => ({ status := 400, body := none }, state)

/-- One client operation against the shared `State` store. -/
inductive StoreOp where
  | append : User → StoreOp
  | snapshot : StoreOp

/-- Runs a sequence of store operations from an initial store, collecting
the sequence a caller of `GET /users` observes at each `snapshot`
(the clone taken by `handlers::list_users`). -/
def runOps (st : List User) : List StoreOp → List (List User)
  | [] => []
  | StoreOp.append u :: rest => runOps (create_user u st).2 rest
  | StoreOp.snapshot :: rest => st :: runOps (list_users st).2 rest

/-- The users appended by a sequence of operations, in order. -/
def appendedUsers (ops : List StoreOp) : List User :=
  ops.filterMap fun op =>
    match op with
    | StoreOp.append u => some u
    | StoreOp.snapshot => none

/-- `observability::ServiceMetrics`: the classified observation of one
completed request. -/
structure ServiceMetrics where
  duration_ms : Nat
  status_family : String
  method : String
  path : String
deriving DecidableEq

/-- `ServiceMetrics::duration_labels`. -/
def ServiceMetrics.duration_labels (m : ServiceMetrics) : List (String × String) :=
  [("http.status_code", m.status_family), ("http.method", m.method),
   ("http.target", m.path)]

/-- `ServiceMetrics::status_code_labels`. -/
def ServiceMetrics.status_code_labels (m : ServiceMetrics) : List (String × String) :=
  [("http.status_code", m.status_family), ("http.method", m.method)]

/-- The state of a labelled u64 counter instrument: current value per
label set. -/
def LabeledCounter : Type := List (String × String) → Nat

/-- The state of a labelled u64 value-recorder instrument: the multiset of
recorded values per label set, kept as a list in recording order. -/
def LabeledRecorder : Type := List (String × String) → List Nat

/-- `Counter::add`: adds delta at the given label set only. -/
def counterAdd (c : LabeledCounter) (delta : Nat)
    (labels : List (String × String)) : LabeledCounter :=
  fun k => if k = labels then c k + delta else c k

/-- `ValueRecorder::record`: appends the value at the given label set
only. -/
def recorderRecord (c : LabeledRecorder) (v : Nat)
    (labels : List (String × String)) : LabeledRecorder :=
  fun k => if k = labels then c k ++ [v] else c k

/-- The process-wide `Meters` registry: incoming_requests and
status_codes counters, http.server.duration value recorder. -/
structure Registry where
  incoming_requests : LabeledCounter
  duration : LabeledRecorder
  status_codes : LabeledCounter

/-- The registry at process start: nothing recorded yet. -/
def Registry.empty : Registry :=
  { incoming_requests := fun _ => 0,
    duration := fun _ => [],
    status_codes := fun _ => 0 }

/-- `ServiceMetrics::record`: adds 1 to incoming_requests with no labels,
records duration_ms under duration_labels, adds 1 to status_codes under
status_code_labels. -/
def ServiceMetrics.record (m : ServiceMetrics) (r : Registry) : Registry :=
  { incoming_requests := counterAdd r.incoming_requests 1 [],
    duration := recorderRecord r.duration m.duration_ms m.duration_labels,
    status_codes := counterAdd r.status_codes 1 m.status_code_labels }

/-- `warp::log::Info`, as consumed by the classifier: elapsed wall time in
nanoseconds (a `std::time::Duration`), final status code (`as_u16`), the
request method and path. -/
structure Info where
  elapsed_ns : Nat
  status : Nat
  method : String
  path : String

/-- The status-family match arm of `TryFrom<&Info> for ServiceMetrics`:
ranges 500..=599 down to 100..=199, anything else is an error. -/
def status_family_of (code : Nat) : Except String String :=
  if 500 ≤ code ∧ code ≤ 599 then Except.ok "500"
  else if 400 ≤ code ∧ code ≤ 499 then Except.ok "400"
  else if 300 ≤ code ∧ code ≤ 399 then Except.ok "300"
  else if 200 ≤ code ∧ code ≤ 299 then Except.ok "200"
  else if 100 ≤ code ∧ code ≤ 199 then Except.ok "100"
  else Except.error "unknown status code"

/-- The method match arm: only GET and POST pass through. -/
def method_of (m : String) : Except String String :=
  if m = "GET" then Except.ok "GET"
  else if m = "POST" then Except.ok "POST"
  else Except.error "unknown http method"

/-- `TryFrom<&Info<'_>> for ServiceMetrics::try_from`.  Rust's
`Duration::as_millis` yields the total whole milliseconds, i.e.
floor(elapsed_ns / 10^6), and the `as u64` cast reduces that mod 2^64. -/
def ServiceMetrics.try_from (info : Info) : Except String ServiceMetrics :=
  let duration_ms := info.elapsed_ns / 1000000 % 2 ^ 64
  match status_family_of info.status with
  | Except.error e => Except.error e
  | Except.ok status_family =>
    match method_of info.method with
    | Except.error e => Except.error e
    | Except.ok method =>
      let path := if info.path = "/users" then "/users" else "invalid"
      Except.ok { duration_ms := duration_ms, status_family := status_family,
                  method := method, path := path }

/-- `observability::record_metrics`, the per-request log hook: the metrics
endpoint is skipped before classification; a classification failure is
silently skipped; otherwise the observation is recorded. -/
def record_metrics (info : Info) (r : Registry) : Registry :=
  if info.path = "/metrics" then r
  else
    match ServiceMetrics.try_from info with
    | Except.ok m => ServiceMetrics.record m r
    | Except.error _ => r

/-- The effect of `.with(warp::log::custom(record_metrics))`: the hook
observes the completed request's `Info` and the handler's reply passes
through unchanged. -/
def with_log (reply : Reply) (info : Info) (r : Registry) : Reply × Registry :=
  (reply, record_metrics info r)

/-- The duration value the registry records for a request, when the
request is classified at all. -/
def recordedDuration (info : Info) : Option Nat :=
  (ServiceMetrics.try_from info).toOption.map ServiceMetrics.duration_ms

/-- The fixed histogram bucket boundaries passed to
`with_default_histogram_boundaries` in `init_metrics_exporter`, read as
seconds: 0.005, 0.01, 0.025, 0.05, 0.1, 0.25, 0.5, 1, 2.5, 5, 10. -/
def default_histogram_boundaries : List ℚ :=
  [5 / 1000, 1 / 100, 25 / 1000, 5 / 100, 1 / 10, 25 / 100, 5 / 10, 1,
   25 / 10, 5, 10]

/-- A value (in seconds) falls into one of the finite histogram buckets
exactly when it is at most some boundary (exposition-format histograms
are cumulative). -/
def falls_into_bucket (v : ℚ) : Bool :=
  default_histogram_boundaries.any fun b => decide (v ≤ b)

/-! ## Helper lemmas -/

theorem isOk_error_eq_false (e : String) (a : Except String α) :
    a = Except.error e → a.isOk = false := by
  intro h
  rw [h]
  rfl

theorem status_family_of_err (s : Nat) (h : s < 100 ∨ 599 < s) :
    status_family_of s = Except.error "unknown status code" := by
  have h1 : ¬(500 ≤ s ∧ s ≤ 599) := by omega
  have h2 : ¬(400 ≤ s ∧ s ≤ 499) := by omega
  have h3 : ¬(300 ≤ s ∧ s ≤ 399) := by omega
  have h4 : ¬(200 ≤ s ∧ s ≤ 299) := by omega
  have h5 : ¬(100 ≤ s ∧ s ≤ 199) := by omega
  simp [status_family_of, h1, h2, h3, h4, h5]

theorem method_of_err (m : String) (h1 : m ≠ "GET") (h2 : m ≠ "POST") :
    method_of m = Except.error "unknown http method" := by
  simp [method_of, h1, h2]

theorem runOps_snapshot (pre : List StoreOp) :
    ∀ (st : List User) (post : List StoreOp),
      runOps st (pre ++ StoreOp.snapshot :: post)
        = runOps st pre
            ++ (st ++ appendedUsers pre)
              :: runOps (st ++ appendedUsers pre) post := by
  induction pre with
  | nil =>
    intro st post
    simp [runOps, appendedUsers, list_users]
  | cons op rest ih =>
    intro st post
    cases op with
    | append u =>
      simp only [List.cons_append, runOps, create_user, List.append_eq]
      rw [ih (st ++ [u]) post]
      simp [appendedUsers, List.append_assoc]
    | snapshot =>
      simp only [List.cons_append, runOps, list_users, List.append_eq]
      rw [ih st post]
      simp [appendedUsers]

/-! ## Claim theorems -/

/-- C1: recording a successfully classified observation updates the
registry in exactly three ways: the total-requests counter increments by 1
at the empty label set, the status-code counter increments by 1 at the
observation's (statusFamily, method) labels, and the elapsed milliseconds
value is appended to the duration distribution at the observation's
(statusFamily, method, path) labels; every other label set of every
instrument is unchanged. -/
theorem record_updates_exactly_three (m : ServiceMetrics) (r : Registry) :
    (ServiceMetrics.record m r).incoming_requests [] = r.incoming_requests [] + 1
    ∧ (ServiceMetrics.record m r).status_codes m.status_code_labels
        = r.status_codes m.status_code_labels + 1
    ∧ (ServiceMetrics.record m r).duration m.duration_labels
        = r.duration m.duration_labels ++ [m.duration_ms]
    ∧ (∀ k, k = ([] : List (String × String))
        ∨ (ServiceMetrics.record m r).incoming_requests k = r.incoming_requests k)
    ∧ (∀ k, k = m.status_code_labels
        ∨ (ServiceMetrics.record m r).status_codes k = r.status_codes k)
    ∧ (∀ k, k = m.duration_labels
        ∨ (ServiceMetrics.record m r).duration k = r.duration k) := by
  refine ⟨by simp [ServiceMetrics.record, counterAdd],
          by simp [ServiceMetrics.record, counterAdd],
          by simp [ServiceMetrics.record, recorderRecord], ?_, ?_, ?_⟩
  · intro k
    by_cases hk : k = ([] : List (String × String))
    · exact Or.inl hk
    · exact Or.inr (by simp [ServiceMetrics.record, counterAdd, hk])
  · intro k
    by_cases hk : k = m.status_code_labels
    · exact Or.inl hk
    · exact Or.inr (by simp [ServiceMetrics.record, counterAdd, hk])
  · intro k
    by_cases hk : k = m.duration_labels
    · exact Or.inl hk
    · exact Or.inr (by simp [ServiceMetrics.record, recorderRecord, hk])

/-- C2: the duration histogram uses the fixed boundary list from
`init_metrics_exporter`, whose smallest boundary is 5 milliseconds (0.005
seconds) and largest is 10 seconds, and every elapsed duration of at most
10000 milliseconds falls into one of the finite buckets rather than beyond
the largest boundary. -/
theorem duration_buckets_span (ms : Nat) (h : ms ≤ 10000) :
    default_histogram_boundaries.head? = some ((5 : ℚ) / 1000)
    ∧ default_histogram_boundaries.getLast? = some ((10 : ℚ))
    ∧ falls_into_bucket (((ms : Nat) : ℚ) / 1000) = true := by
  refine ⟨rfl, by decide, ?_⟩
  rw [falls_into_bucket, List.any_eq_true]
  refine ⟨10, by simp [default_histogram_boundaries], ?_⟩
  rw [decide_eq_true_eq, div_le_iff₀ (by norm_num : (0 : ℚ) < 1000)]
  have hq : ((ms : Nat) : ℚ) ≤ 10000 := by exact_mod_cast h
  linarith

/-- Witness for C2 at a 5 ms request. -/
theorem duration_buckets_span_witness :
    5 ≤ 10000
    ∧ (default_histogram_boundaries.head? = some ((5 : ℚ) / 1000)
       ∧ default_histogram_boundaries.getLast? = some ((10 : ℚ))
       ∧ falls_into_bucket (((5 : Nat) : ℚ) / 1000) = true) :=
  ⟨by decide, duration_buckets_span 5 (by decide)⟩

/-- C4: a completed request whose path is exactly "/metrics" is skipped
before classification: the registry is returned unchanged in every metric,
and the reply passes through the log wrapper untouched. -/
theorem metrics_path_skips_recording (info : Info) (r : Registry) (reply : Reply)
    (h : info.path = "/metrics") :
    record_metrics info r = r ∧ with_log reply info r = (reply, r) := by
  constructor
  · simp [record_metrics, h]
  · simp [with_log, record_metrics, h]

/-- A scrape of the metrics endpoint, as the log hook sees it. -/
def metricsInfo : Info :=
  { elapsed_ns := 42, status := 200, method := "GET", path := "/metrics" }

/-- Witness for C4: a classifiable GET that hits "/metrics" leaves the
empty registry untouched. -/
theorem metrics_path_skips_recording_witness :
    record_metrics metricsInfo Registry.empty = Registry.empty
    ∧ with_log { status := 200, body := none } metricsInfo Registry.empty
        = ({ status := 200, body := none }, Registry.empty) :=
  metrics_path_skips_recording metricsInfo Registry.empty
    { status := 200, body := none } rfl

/-- C6: a valid POST /users request (body deserializes to a user) always
succeeds: it replies 201 with an empty body and appends the deserialized
user to the tail of the store, leaving the previously stored users
unchanged and in their original order. -/
theorem create_user_appends (body : Json) (u : User) (st : List User)
    (h : User.fromJson body = Except.ok u) :
    post_users_route body st = ({ status := 201, body := none }, st ++ [u])
    ∧ (post_users_route body st).2.take st.length = st
    ∧ (post_users_route body st).2.getLast? = some u := by
  have h1 : post_users_route body st = ({ status := 201, body := none }, st ++ [u]) := by
    simp [post_users_route, h, create_user]
  refine ⟨h1, ?_, ?_⟩
  · rw [h1]
    exact List.take_left st [u]
  · rw [h1]
    exact List.getLast?_concat st

/-- The request body of the create-user scenario. -/
def janeJson : Json :=
  Json.obj [("id", Json.num 123), ("firstName", Json.str "Jane"),
            ("lastName", Json.str "Doe"), ("gender", Json.str "female")]

/-- The user that body deserializes to. -/
def jane : User :=
  { id := 123, first_name := some "Jane", last_name := "Doe",
    gender := Gender.female }

/-- Witness for C6: posting Jane Doe to an empty store. -/
theorem create_user_appends_witness :
    post_users_route janeJson [] = ({ status := 201, body := none }, [jane])
    ∧ (post_users_route janeJson []).2.take (List.length ([] : List User)) = []
    ∧ (post_users_route janeJson []).2.getLast? = some jane :=
  create_user_appends janeJson jane [] rfl

/-- C7: every snapshot taken by the list handler in any sequence of store
operations equals exactly the users appended before it, in insertion
order, and is unaffected by the operations that follow it. -/
theorem list_snapshot_consistent (pre post : List StoreOp) :
    runOps [] (pre ++ StoreOp.snapshot :: post)
      = runOps [] pre ++ appendedUsers pre :: runOps (appendedUsers pre) post := by
  have h := runOps_snapshot pre [] post
  simpa using h

/-- C3: a completed request whose status code is outside 100..599 or
whose method is neither GET nor POST fails classification: no observation
is produced, the registry is unchanged in every metric, and the reply
passes through the log wrapper untouched. -/
theorem classification_failure_skips (info : Info) (r : Registry) (reply : Reply)
    (h : info.status < 100 ∨ 599 < info.status
         ∨ (info.method ≠ "GET" ∧ info.method ≠ "POST")) :
    (ServiceMetrics.try_from info).isOk = false
    ∧ record_metrics info r = r
    ∧ with_log reply info r = (reply, r) := by
  have htf : (ServiceMetrics.try_from info).isOk = false := by
    rcases h with h | h | h
    · simp [ServiceMetrics.try_from, status_family_of_err info.status (Or.inl h),
            Except.isOk, Except.toBool]
    · simp [ServiceMetrics.try_from, status_family_of_err info.status (Or.inr h),
            Except.isOk, Except.toBool]
    · cases hsf : status_family_of info.status with
      | error e => simp [ServiceMetrics.try_from, hsf, Except.isOk, Except.toBool]
      | ok sf =>
        simp [ServiceMetrics.try_from, hsf, method_of_err info.method h.1 h.2,
              Except.isOk, Except.toBool]
  have hrec : record_metrics info r = r := by
    cases htf2 : ServiceMetrics.try_from info with
    | ok m => rw [htf2] at htf; cases htf
    | error e =>
      by_cases hp : info.path = "/metrics" <;> simp [record_metrics, hp, htf2]
  exact ⟨htf, hrec, by simp [with_log, hrec]⟩

/-- A request that completed with an out-of-family status code. -/
def badStatusInfo : Info :=
  { elapsed_ns := 12, status := 999, method := "GET", path := "/users" }

/-- Witness for C3: status 999 on a GET to /users records nothing. -/
theorem classification_failure_skips_witness :
    (ServiceMetrics.try_from badStatusInfo).isOk = false
    ∧ record_metrics badStatusInfo Registry.empty = Registry.empty
    ∧ with_log { status := 999, body := none } badStatusInfo Registry.empty
        = ({ status := 999, body := none }, Registry.empty) :=
  classification_failure_skips badStatusInfo Registry.empty
    { status := 999, body := none } (Or.inr (Or.inl (by decide)))

/-- C5: a completed GET or POST to a path other than "/users" and
"/metrics" finishing with status 404 classifies successfully with
path = "invalid" and statusFamily = "400", and the status-code counter at
those labels increments by exactly 1. -/
theorem unmapped_path_404_counts (info : Info) (r : Registry)
    (hp1 : info.path ≠ "/users") (hp2 : info.path ≠ "/metrics")
    (hm : info.method = "GET" ∨ info.method = "POST")
    (hs : info.status = 404) :
    ServiceMetrics.try_from info
      = Except.ok { duration_ms := info.elapsed_ns / 1000000 % 2 ^ 64,
                    status_family := "400", method := info.method,
                    path := "invalid" }
    ∧ (record_metrics info r).status_codes
        [("http.status_code", "400"), ("http.method", info.method)]
      = r.status_codes [("http.status_code", "400"), ("http.method", info.method)]
          + 1 := by
  have hsf : status_family_of info.status = Except.ok "400" := by
    rw [hs]; rfl
  have hmo : method_of info.method = Except.ok info.method := by
    rcases hm with h | h <;> rw [h] <;> rfl
  have htf : ServiceMetrics.try_from info
      = Except.ok { duration_ms := info.elapsed_ns / 1000000 % 2 ^ 64,
                    status_family := "400", method := info.method,
                    path := "invalid" } := by
    simp [ServiceMetrics.try_from, hsf, hmo, hp1]
  refine ⟨htf, ?_⟩
  simp [record_metrics, hp2, htf, ServiceMetrics.record, counterAdd,
        ServiceMetrics.status_code_labels]

/-- A probing request to an unmapped path that finished 404. -/
def widgetsInfo : Info :=
  { elapsed_ns := 3000000, status := 404, method := "GET", path := "/widgets" }

/-- Witness for C5: a GET /widgets that finished 404 against the empty
registry. -/
theorem unmapped_path_404_counts_witness :
    ServiceMetrics.try_from widgetsInfo
      = Except.ok { duration_ms := widgetsInfo.elapsed_ns / 1000000 % 2 ^ 64,
                    status_family := "400", method := widgetsInfo.method,
                    path := "invalid" }
    ∧ (record_metrics widgetsInfo Registry.empty).status_codes
        [("http.status_code", "400"), ("http.method", widgetsInfo.method)]
      = Registry.empty.status_codes
          [("http.status_code", "400"), ("http.method", widgetsInfo.method)]
          + 1 :=
  unmapped_path_404_counts widgetsInfo Registry.empty (by decide) (by decide)
    (Or.inl rfl) rfl

/-- C8: a gender tag outside the closed enumeration fails deserialization
of the gender and of the whole user record (it does not default to
unspecified), and the POST /users route leaves the store unchanged on
such a body. -/
theorem gender_outside_enum_fails (g : String) (uid : Nat) (ln : String)
    (st : List User)
    (h1 : g ≠ "female") (h2 : g ≠ "male") (h3 : g ≠ "unspecified") :
    (Gender.fromJson (Json.str g)).isOk = false
    ∧ (User.fromJson (Json.obj
        [("id", Json.num uid), ("lastName", Json.str ln),
         ("gender", Json.str g)])).isOk = false
    ∧ post_users_route (Json.obj
        [("id", Json.num uid), ("lastName", Json.str ln),
         ("gender", Json.str g)]) st
      = ({ status := 400, body := none }, st) := by
  have hg : Gender.fromJson (Json.str g)
      = Except.error "unknown variant of Gender" := by
    simp [Gender.fromJson, h1, h2, h3]
  have hu : User.fromJson (Json.obj
      [("id", Json.num uid), ("lastName", Json.str ln),
       ("gender", Json.str g)])
      = Except.error "unknown variant of Gender" := by
    simp [User.fromJson, jsonLookup, parseId, parseFirstName, parseLastName, hg]
  exact ⟨isOk_error_eq_false _ _ hg, isOk_error_eq_false _ _ hu,
         by simp [post_users_route, hu]⟩

/-- Witness for C8: gender "alien" is rejected and the store stays
empty. -/
theorem gender_outside_enum_fails_witness :
    (Gender.fromJson (Json.str "alien")).isOk = false
    ∧ (User.fromJson (Json.obj
        [("id", Json.num 1), ("lastName", Json.str "Doe"),
         ("gender", Json.str "alien")])).isOk = false
    ∧ post_users_route (Json.obj
        [("id", Json.num 1), ("lastName", Json.str "Doe"),
         ("gender", Json.str "alien")]) []
      = ({ status := 400, body := none }, []) :=
  gender_outside_enum_fails "alien" 1 "Doe" [] (by decide) (by decide)
    (by decide)

/-- C9: for a user with no firstName, the serialized object contains no
"firstName" key at all (rather than a null), and deserializing the
serialized form yields the same user back, firstName still absent. -/
theorem first_name_omission_round_trips (u : User) (h : u.first_name = none) :
    (User.toJson u).objKeys.contains "firstName" = false
    ∧ User.fromJson (User.toJson u) = Except.ok u := by
  obtain ⟨uid, fn, ln, g⟩ := u
  have h' : fn = none := h
  subst h'
  cases g <;> exact ⟨rfl, rfl⟩

/-- Witness for C9 at a concrete user without a first name. -/
theorem first_name_omission_round_trips_witness :
    (User.toJson { id := 7, first_name := none, last_name := "Doe",
                   gender := Gender.unspecified }).objKeys.contains "firstName"
      = false
    ∧ User.fromJson (User.toJson { id := 7, first_name := none,
                                   last_name := "Doe",
                                   gender := Gender.unspecified })
      = Except.ok { id := 7, first_name := none, last_name := "Doe",
                    gender := Gender.unspecified } :=
  first_name_omission_round_trips
    { id := 7, first_name := none, last_name := "Doe",
      gender := Gender.unspecified } rfl

/-- A request whose elapsed time is 2^61 seconds: representable as a Rust
`Duration` (secs = 2^61 < 2^64, nanos = 0), with a whole-millisecond count
of 2^61 * 1000, which exceeds u64. -/
def hugeInfo : Info :=
  { elapsed_ns := 2305843009213693952 * 1000000000, status := 200,
    method := "GET", path := "/users" }

/-- Counterexample to C10 as stated: at 2^61 seconds of elapsed time the
recorded duration is not floor(d / 10^6) — the `as u64` cast has wrapped
(here all the way to 0, since 2^61 * 1000 is a multiple of 2^64). -/
theorem duration_cast_wraps :
    recordedDuration hugeInfo ≠ some (hugeInfo.elapsed_ns / 1000000) := by
  decide

/-- C10 (amended): the recorded duration is floor(d / 10^6) reduced
mod 2^64, where d is the elapsed nanoseconds; in particular it is 0 for
any request finishing in under a millisecond, and equals floor(d / 10^6)
whenever that quotient fits in a u64. -/
theorem duration_truncation_mod (info : Info) (m : ServiceMetrics)
    (h : ServiceMetrics.try_from info = Except.ok m) :
    m.duration_ms = info.elapsed_ns / 1000000 % 2 ^ 64
    ∧ (info.elapsed_ns < 1000000 → m.duration_ms = 0)
    ∧ (info.elapsed_ns / 1000000 < 2 ^ 64
        → m.duration_ms = info.elapsed_ns / 1000000) := by
  have hd : m.duration_ms = info.elapsed_ns / 1000000 % 2 ^ 64 := by
    simp only [ServiceMetrics.try_from] at h
    cases hsf : status_family_of info.status with
    | error e => rw [hsf] at h; cases h
    | ok sf =>
      rw [hsf] at h
      cases hmo : method_of info.method with
      | error e => rw [hmo] at h; cases h
      | ok mth =>
        rw [hmo] at h
        injection h with h2
        rw [← h2]
  refine ⟨hd, ?_, ?_⟩
  · intro hlt
    rw [hd, Nat.div_eq_of_lt hlt, Nat.zero_mod]
  · intro hlt
    rw [hd, Nat.mod_eq_of_lt hlt]

/-- A request that finished in just under a millisecond. -/
def tinyInfo : Info :=
  { elapsed_ns := 999999, status := 200, method := "GET", path := "/users" }

/-- The observation classified from `tinyInfo`. -/
def tinyMetrics : ServiceMetrics :=
  { duration_ms := 0, status_family := "200", method := "GET",
    path := "/users" }

/-- Witness for the amended C10: a 999999 ns request records duration
0. -/
theorem duration_truncation_mod_witness :
    ServiceMetrics.try_from tinyInfo = Except.ok tinyMetrics
    ∧ tinyMetrics.duration_ms = 0 :=
  ⟨rfl, (duration_truncation_mod tinyInfo tinyMetrics rfl).2.1 (by decide)⟩
